import Mathlib

/-!
Verification of the player locomotion and traversal controller of a 3D
platformer prototype written in Rust on top of an entity-component engine
with a rigid-body physics backend.

The relevant Rust modules are embedded shallowly:

* `src/player/movement/components.rs` — the latest `Jump` component
  (namespace `Platformer.Jump` below) together with the bevy `Timer` it
  carries (mode `Once`);
* `src/player/movement/locomotion.rs` and the identical code in
  `src/player_movement.rs` — `PlayerSpeed` and `move_player_from_rotation`
  (namespace `Platformer.Locomotion`);
* `src/player_movement.rs` — the revision with the explicit
  `GroundedState` machine, its `detect_walls` and `handle_wall_jumping`
  (namespace `Platformer.PM`);
* `src/player/movement/jumping.rs` — the latest wall systems built on the
  `Walljump` marker component (namespace `Platformer.Jumping`);
* `src/camera.rs` — `CameraController`, `update_camera_target_position`
  and `rotate_camera` (namespace `Platformer.Camera`).

Engine floats are embedded as exact rationals; every numeric constant of
the controller (10.0, 15.0, 20.0, 0.2, 1.5, 0.3, 45.0, 360.0, ...) is
exactly representable.  The physics engine is an external collaborator and
its ray casts are abstracted as oracle functions passed to the embedded
systems.  Entity identifiers are embedded as naturals.
-/

namespace Platformer

/-- Three-component vector with exact rational coordinates, standing in for
the engine's 32-bit float vector type `Vec3`. -/
structure Vec3 where
  x : ℚ
  y : ℚ
  z : ℚ
  deriving DecidableEq, Repr

/-- Componentwise vector addition, as in the engine. -/
instance : Add Vec3 := ⟨fun a b => ⟨a.x + b.x, a.y + b.y, a.z + b.z⟩⟩

/-- Componentwise vector subtraction, as in the engine. -/
instance : Sub Vec3 := ⟨fun a b => ⟨a.x - b.x, a.y - b.y, a.z - b.z⟩⟩

/-- Vector-times-scalar multiplication `v * s`, as in the engine. -/
instance : HMul Vec3 ℚ Vec3 := ⟨fun v s => ⟨v.x * s, v.y * s, v.z * s⟩⟩

/-- Rust `Vec3::ZERO`. -/
def Vec3.zero : Vec3 := ⟨0, 0, 0⟩

/-- Rust `Vec3::Y`, the world up axis. -/
def Vec3.unitY : Vec3 := ⟨0, 1, 0⟩

/-- Bevy `Timer` in `TimerMode::Once`: a duration and the time elapsed so
far.  Bevy clamps `elapsed` at `duration` when ticking a once-timer, and
`finished` holds exactly when `elapsed` has reached `duration`. -/
structure Timer where
  duration : ℚ
  elapsed : ℚ
  deriving DecidableEq, Repr

/-- Rust `Timer::from_seconds(d, TimerMode::Once)`. -/
def Timer.from_seconds (d : ℚ) : Timer := ⟨d, 0⟩

/-- Rust `Timer::tick(delta)` for a once-timer: elapsed time accumulates,
clamped at the duration (ticking an already finished once-timer leaves it
unchanged). -/
def Timer.tick (t : Timer) (delta : ℚ) : Timer :=
  { t with elapsed := min (t.elapsed + delta) t.duration }

/-- Rust `Timer::finished()`. -/
def Timer.finished (t : Timer) : Bool := t.duration ≤ t.elapsed

/-- Rust `Timer::reset()`. -/
def Timer.reset (t : Timer) : Timer := { t with elapsed := 0 }

/-- The jump stage cycle of `src/player/movement/components.rs`. -/
inductive JumpStage
  | Single
  | Double
  | Triple
  deriving DecidableEq, Repr

/-- The latest `Jump` component of `src/player/movement/components.rs`:
a buffer timer, the current stage of the jump cycle and the buffered
flag. -/
structure Jump where
  input_timer : Timer
  jump_stage : JumpStage
  jump_buffered : Bool
  deriving DecidableEq, Repr

namespace Jump

/-- Rust `Jump::reset_jump_stage`. -/
def reset_jump_stage (j : Jump) : Jump := { j with jump_stage := .Single }

/-- Rust `Jump::reset_input`. -/
def reset_input (j : Jump) : Jump :=
  { j with jump_buffered := false, input_timer := j.input_timer.reset }

/-- Rust private `Jump::reset`: resets the stage, then the input. -/
def reset (j : Jump) : Jump := j.reset_jump_stage.reset_input

/-- Rust `Jump::update(delta)`: while a jump is buffered the input timer is
ticked, and when it finishes the whole component is reset. -/
def update (j : Jump) (delta : ℚ) : Jump :=
  if j.jump_buffered then
    let t := j.input_timer.tick delta
    if t.finished then Jump.reset { j with input_timer := t }
    else { j with input_timer := t }
  else j

/-- Rust `Jump::get_jump_force`: returns the updated component together
with the force, `None` when no jump is buffered. -/
def get_jump_force (j : Jump) : Jump × Option ℚ :=
  if j.jump_buffered then
    let j' := j.reset_input
    match j.jump_stage with
    | .Single => ({ j' with jump_stage := .Double }, some 10)
    | .Double => ({ j' with jump_stage := .Triple }, some 15)
    | .Triple => ({ j' with jump_stage := .Single }, some 20)
  else (j, none)

/-- Rust `Jump::get_wall_jump_force`: always resets the input and returns
the fixed force 15.0. -/
def get_wall_jump_force (j : Jump) : Jump × ℚ := (j.reset_input, 15)

/-- Rust `Jump::buffer_jump`. -/
def buffer_jump (j : Jump) : Jump :=
  { j with jump_buffered := true, input_timer := j.input_timer.reset }

/-- Rust `impl Default for Jump`: a 0.2 s once-timer, stage `Single`, not
buffered. -/
def mk_default : Jump := ⟨Timer.from_seconds (1/5), .Single, false⟩

/-- Folding `Jump::update` over a list of frame deltas, one system run per
element (system `handle_jump_buffer`). -/
def update_list (j : Jump) (ds : List ℚ) : Jump := ds.foldl Jump.update j

/-- One buffered-and-consumed jump: the player presses jump
(`buffer_jump`) and the state machine immediately consumes the buffer
(`get_jump_force`), as `buffer_jump` and `handle_jumping` do within one
tick in `src/player/movement/jumping.rs`. -/
def press_and_jump (j : Jump) : Jump × Option ℚ := j.buffer_jump.get_jump_force

end Jump

namespace Locomotion

/-- `PlayerSpeed` from `src/player/movement/locomotion.rs`; the same code
appears in `src/player_movement.rs`. -/
structure PlayerSpeed where
  accel_timer : Timer
  base_speed : ℚ
  current_speed : ℚ
  top_speed : ℚ
  min_speed : ℚ
  acceleration : ℚ
  deriving DecidableEq, Repr

/-- Rust `PlayerSpeed::reset`. -/
def PlayerSpeed.reset (s : PlayerSpeed) : PlayerSpeed :=
  { s with current_speed := s.base_speed, accel_timer := s.accel_timer.reset }

/-- Rust `PlayerSpeed::accelerate(time)`: ticks the debounce timer, and
once it has finished moves `current_speed` by the remaining gap times
`acceleration * dt`, snapping to `top_speed` when already within 0.3 of
it. -/
def PlayerSpeed.accelerate (s : PlayerSpeed) (dt : ℚ) : PlayerSpeed :=
  if (s.accel_timer.tick dt).finished then
    if s.current_speed + 3/10 ≤ s.top_speed then
      { s with accel_timer := s.accel_timer.tick dt,
               current_speed := s.current_speed
                 + (s.top_speed - s.current_speed) * (dt * s.acceleration) }
    else
      { s with accel_timer := s.accel_timer.tick dt, current_speed := s.top_speed }
  else
    { s with accel_timer := s.accel_timer.tick dt }

/-- Rust `PlayerSpeed::current`. -/
def PlayerSpeed.current (s : PlayerSpeed) : ℚ := s.current_speed

/-- Rust `impl Default for PlayerSpeed`: 1.5 s debounce timer, base 7.5,
current 7.5, top 15.0, min -20.0, acceleration 2.0. -/
def PlayerSpeed.mk_default : PlayerSpeed :=
  ⟨Timer.from_seconds (3/2), 15/2, 15/2, 15, -20, 2⟩

/-- Rust `Movement::is_moving` on the movement direction component.  The
`Movement` struct itself is not among the provided sources; its
`is_moving` is modelled as direction ≠ zero, matching the identical
`Direction::is_moving` of `src/main.rs` and the spec's phrase that the
forward term applies only when the direction is nonzero. -/
def is_moving (direction : Vec3) : Bool := direction ≠ Vec3.zero

/-- Rust `move_player_from_rotation` from
`src/player/movement/locomotion.rs` (identical in
`src/player_movement.rs`): accumulates the outside force's horizontal
components and, when the direction is nonzero, body-forward times the
current speed, then writes only `linvel.x` and `linvel.z`, and only when
one of the two contributions was active.  `forward` stands for
`transform.forward()`, the player body's unit forward axis. -/
def move_player_from_rotation (player_speed : PlayerSpeed) (linvel : Vec3)
    (forward : Vec3) (direction : Vec3) (outside_force : Option Vec3) : Vec3 :=
  let speed_to_apply : Vec3 := Vec3.zero
  let step1 : Vec3 × Bool :=
    match outside_force with
    | some f => (⟨speed_to_apply.x + f.x, speed_to_apply.y, speed_to_apply.z + f.z⟩, true)
    | none => (speed_to_apply, false)
  let step2 : Vec3 × Bool :=
    if is_moving direction then (step1.1 + forward * player_speed.current, true)
    else step1
  if step2.2 then ⟨step2.1.x, linvel.y, step2.1.z⟩ else linvel

end Locomotion

/-- The nearest hit of a ray cast, as returned by the physics engine's
`cast_ray_and_get_normal`: hit point and surface normal. -/
structure RayIntersection where
  point : Vec3
  normal : Vec3
  deriving DecidableEq, Repr

/-- Abstraction of the physics engine's
`cast_ray_and_get_normal(ray_pos, ray_dir, max_distance, solid, filter)`.
Every embedded caller builds `ray_dir` as the normalized vector from an
origin point toward a target point and `max_distance` as the distance
between those two points, with fixed `solid = true` and a fixed filter
(exclude sensors and the player's collider), so the cast is a function of
the origin and the target point; the oracle takes exactly those two. -/
abbrev CastOracle : Type := Vec3 → Vec3 → Option RayIntersection

/-- Fixed test oracle used by witnesses: every cast reports a hit at
point (1, 2, 3) with an upward normal. -/
def always_hit : CastOracle := fun _ _ => some ⟨⟨1, 2, 3⟩, Vec3.unitY⟩

/-- Player transform, reduced to the data the embedded systems use: the
translation and the forward axis of the orientation.  The engine stores
the orientation as a quaternion and `forward()` is its unit forward
axis; here the forward axis is kept as a vector determined up to positive
scale. -/
structure Transform where
  translation : Vec3
  forward : Vec3
  deriving DecidableEq, Repr

/-- Rust `Transform::look_at(target, Vec3::Y)`: re-orients the transform
so its forward axis is the unit vector from `translation` toward
`target`.  The embedding records the unnormalized difference, the same
direction up to positive scale. -/
def Transform.look_at (t : Transform) (target : Vec3) : Transform :=
  { t with forward := target - t.translation }

/-- The physics backend's collision event stream entries:
`CollisionEvent::Started(e1, e2, _)` and `CollisionEvent::Stopped(e1, e2, _)`
(the flags operand is never inspected by the embedded systems). -/
inductive CollisionEvent
  | Started (e1 e2 : Nat)
  | Stopped (e1 e2 : Nat)
  deriving DecidableEq, Repr

namespace PM

/-- `GroundedState` from `src/player_movement.rs`, including the
wall-sliding state carrying the wall normal. -/
inductive GroundedState
  | Grounded
  | Coyote
  | Rising
  | Falling
  | WallSliding (wall_normal : Vec3)
  deriving DecidableEq, Repr

/-- Rust `Grounded::is_airborne` of `src/player_movement.rs`. -/
def GroundedState.is_airborne : GroundedState → Bool
  | .Grounded => false
  | _ => true

/-- Rust `Grounded::is_wall_sliding` of `src/player_movement.rs`. -/
def GroundedState.is_wall_sliding : GroundedState → Bool
  | .WallSliding _ => true
  | _ => false

/-- The player data accessed by `detect_walls` in
`src/player_movement.rs`: transform, grounded state and velocity. -/
structure PlayerState where
  transform : Transform
  grounded : GroundedState
  linvel : Vec3
  deriving DecidableEq, Repr

/-- Rust `detect_walls` of `src/player_movement.rs`, processing of a
single collision event: on `Started` between the wall sensor and a tagged
wall while the player can wall-slide (airborne and not already
wall-sliding), a confirming ray toward the wall zeroes `linvel.x` and
`linvel.z` and enters `WallSliding(normal)`; on `Stopped` with the sensor
and a wall while wall-sliding, the state returns to `Grounded`.  `walls`
is the set of tagged `Wall` entities with their translations. -/
def detect_walls_event (cast_ray : CastOracle) (sensor_entity : Nat)
    (walls : List (Nat × Vec3)) (p : PlayerState) (ev : CollisionEvent) : PlayerState :=
  match ev with
  | .Started e1 e2 =>
      let can_wallslide := p.grounded.is_airborne && !p.grounded.is_wall_sliding
      let hit : Option Nat :=
        if e1 = sensor_entity ∧ (walls.lookup e2).isSome ∧ can_wallslide = true then some e2
        else if e2 = sensor_entity ∧ (walls.lookup e1).isSome ∧ can_wallslide = true then some e1
        else none
      match hit with
      | some w =>
          match walls.lookup w with
          | some wall_translation =>
              match cast_ray p.transform.translation wall_translation with
              | some intersection =>
                  { p with linvel := ⟨0, p.linvel.y, 0⟩,
                           grounded := .WallSliding intersection.normal }
              | none => p
          | none => p
      | none => p
  | .Stopped e1 e2 =>
      if (e1 = sensor_entity ∧ (walls.lookup e2).isSome ∧ p.grounded.is_wall_sliding = true)
          ∨ (e2 = sensor_entity ∧ (walls.lookup e1).isSome ∧ p.grounded.is_wall_sliding = true) then
        { p with grounded := .Grounded }
      else p

/-- Rust `handle_wall_jumping` of `src/player_movement.rs`: while
wall-sliding against `wall_normal`, a just-pressed jump turns the player
to face along the normal, sets the whole linear velocity to
`(Vec3::Y + wall_normal) * get_wall_jump_force()` and enters `Rising`.
Returns (transform, linvel, grounded state, jump). -/
def handle_wall_jumping (jump_just_pressed : Bool) (transform : Transform)
    (linvel : Vec3) (grounded : GroundedState) (jump : Jump) :
    Transform × Vec3 × GroundedState × Jump :=
  match grounded with
  | .WallSliding wall_normal =>
      if jump_just_pressed then
        (transform.look_at (transform.translation + wall_normal),
          (Vec3.unitY + wall_normal) * jump.get_wall_jump_force.2,
          .Rising,
          jump.get_wall_jump_force.1)
      else (transform, linvel, grounded, jump)
  | _ => (transform, linvel, grounded, jump)

end PM

namespace Jumping

/-- The player data accessed by `detect_walls` in
`src/player/movement/jumping.rs`: transform, friction coefficient and the
optional `Walljump(normal)` marker.  The query runs only for players
without the `Grounded` marker (airborne).  The player's `Velocity` is not
part of this system's query; it is carried through here to record that
the system leaves it untouched. -/
structure PlayerState where
  transform : Transform
  friction : ℚ
  walljump : Option Vec3
  linvel : Vec3
  deriving DecidableEq, Repr

/-- Rust `detect_walls` of `src/player/movement/jumping.rs`, processing of
a single collision event: on `Started` between the wall sensor and a
tagged wall while no `Walljump` marker is held, a confirming ray toward
the wall inserts `Walljump(normal)` and sets the friction coefficient to
0; on `Stopped` with the sensor and a wall, friction returns to 1 and the
marker is removed. -/
def detect_walls_event (cast_ray : CastOracle) (sensor_entity : Nat)
    (walls : List (Nat × Vec3)) (p : PlayerState) (ev : CollisionEvent) : PlayerState :=
  match ev with
  | .Started e1 e2 =>
      let hit : Option Nat :=
        if e1 = sensor_entity ∧ (walls.lookup e2).isSome ∧ p.walljump = none then some e2
        else if e2 = sensor_entity ∧ (walls.lookup e1).isSome ∧ p.walljump = none then some e1
        else none
      match hit with
      | some w =>
          match walls.lookup w with
          | some wall_translation =>
              match cast_ray p.transform.translation wall_translation with
              | some intersection =>
                  { p with walljump := some intersection.normal, friction := 0 }
              | none => p
          | none => p
      | none => p
  | .Stopped e1 e2 =>
      if (e1 = sensor_entity ∧ (walls.lookup e2).isSome)
          ∨ (e2 = sensor_entity ∧ (walls.lookup e1).isSome) then
        { p with friction := 1, walljump := none }
      else p

/-- Rust `handle_wall_jumping` of `src/player/movement/jumping.rs`: for a
player holding `Walljump(walljump_normal)`, a just-pressed jump turns the
player to face along the normal, stores `get_wall_jump_force()` into the
`Momentum` scalar, sets the linear velocity to
`Vec3::Y * get_wall_jump_force()` (vertical only) and removes the
`Walljump` marker.  The `Momentum` component itself is not among the
provided sources; per the spec it is the scalar forward speed and its
`set` stores the value, so it is embedded as a rational.  Returns
(transform, linvel, momentum, jump, walljump marker). -/
def handle_wall_jumping (jump_just_pressed : Bool) (transform : Transform)
    (linvel : Vec3) (momentum : ℚ) (jump : Jump) (walljump_normal : Vec3) :
    Transform × Vec3 × ℚ × Jump × Option Vec3 :=
  if jump_just_pressed then
    let t1 := transform.look_at (transform.translation + walljump_normal)
    let jm1 := jump.get_wall_jump_force
    let jm2 := jm1.1.get_wall_jump_force
    (t1, Vec3.unitY * jm2.2, jm1.2, jm2.1, none)
  else (transform, linvel, momentum, jump, some walljump_normal)

end Jumping

namespace Camera

/-- Rust `CameraMode` of `src/camera.rs`. -/
inductive CameraMode
  | Normal
  | Fixed (position : Vec3) (look_target : Vec3)
  deriving DecidableEq, Repr

/-- Rust `CameraController` of `src/camera.rs`. -/
structure CameraController where
  z_distance : ℚ
  y_distance : ℚ
  angle : ℚ
  easing : ℚ
  target_position : Vec3
  player_position : Vec3
  mode : CameraMode
  blocked_by_a_wall : Bool
  deriving DecidableEq, Repr

/-- Rust `CameraController::desired_y_height(momentum)`. -/
def CameraController.desired_y_height (c : CameraController) (momentum : ℚ) : ℚ :=
  if momentum < 5 then c.y_distance / 2 else c.y_distance

/-- Rust `CameraController::desired_z_distance(momentum)`. -/
def CameraController.desired_z_distance (c : CameraController) (momentum : ℚ) : ℚ :=
  if momentum < 10 then c.z_distance else c.z_distance * (3/2)

/-- Rust `CameraController::desired_easing_speed`. -/
def CameraController.desired_easing_speed (c : CameraController) : ℚ :=
  match c.mode with
  | .Normal => if c.blocked_by_a_wall then c.easing * (5/2) else c.easing
  | .Fixed _ _ => c.easing * 5

/-- Rust `impl Default for CameraController`. -/
def CameraController.mk_default : CameraController :=
  ⟨10, 7, 0, 4, Vec3.zero, Vec3.zero, .Fixed ⟨0, 40, -23⟩ Vec3.zero, false⟩

/-- The desired camera position of `update_camera_target_position`: the
player translation, plus the yawed forward direction scaled by the
momentum-tiered depth, plus `Vec3::Y` scaled by the momentum-tiered
height.  `yawed_forward` stands for the unit forward vector of the player
translation's transform with rotation reset and then yawed by
`camera.angle` degrees (`rotate_y(angle.to_radians())` followed by
`forward().normalize()`) — a trigonometric rotation supplied as an
input. -/
def desired_camera_position (c : CameraController) (player_translation : Vec3)
    (momentum : ℚ) (yawed_forward : Vec3) : Vec3 :=
  player_translation + yawed_forward * (c.desired_z_distance momentum)
    + Vec3.unitY * (c.desired_y_height momentum)

/-- Rust `update_camera_target_position` of `src/camera.rs`: records the
player position, casts a ray from the player toward the desired position
(excluding sensors and the player's collider), and stores the hit point
when the ray hits a solid, the unclamped desired position otherwise. -/
def update_camera_target_position (cast_ray : CastOracle) (c : CameraController)
    (player_translation : Vec3) (momentum : ℚ) (yawed_forward : Vec3) : CameraController :=
  let desired := desired_camera_position c player_translation momentum yawed_forward
  match cast_ray player_translation desired with
  | some intersection =>
      { c with player_position := player_translation,
               target_position := intersection.point }
  | none =>
      { c with player_position := player_translation, target_position := desired }

/-- Rust `rotate_camera` of `src/camera.rs`: a just-pressed CameraLeft
subtracts 45 degrees, a just-pressed CameraRight adds 45 degrees, then an
angle beyond 360 has 360 subtracted and one below -360 has 360 added. -/
def rotate_camera (camera_left_just_pressed camera_right_just_pressed : Bool)
    (angle : ℚ) : ℚ :=
  let a1 := if camera_left_just_pressed then angle - 45 else angle
  let a2 := if camera_right_just_pressed then a1 + 45 else a1
  let a3 := if 360 < a2 then a2 - 360 else a2
  if a3 < -360 then a3 + 360 else a3

end Camera

@[simp] theorem Vec3.zero_x : Vec3.zero.x = 0 := rfl

@[simp] theorem Vec3.zero_y : Vec3.zero.y = 0 := rfl

@[simp] theorem Vec3.zero_z : Vec3.zero.z = 0 := rfl

@[simp] theorem Vec3.unitY_x : Vec3.unitY.x = 0 := rfl

@[simp] theorem Vec3.unitY_y : Vec3.unitY.y = 1 := rfl

@[simp] theorem Vec3.unitY_z : Vec3.unitY.z = 0 := rfl

@[simp] theorem Vec3.add_def (a b : Vec3) : a + b = ⟨a.x + b.x, a.y + b.y, a.z + b.z⟩ := rfl

@[simp] theorem Vec3.sub_def (a b : Vec3) : a - b = ⟨a.x - b.x, a.y - b.y, a.z - b.z⟩ := rfl

@[simp] theorem Vec3.hmul_def (v : Vec3) (s : ℚ) : v * s = ⟨v.x * s, v.y * s, v.z * s⟩ := rfl

theorem jump_update_not_buffered (j : Jump) (d : ℚ) (h : j.jump_buffered = false) :
    j.update d = j := by
  simp [Jump.update, h]

theorem jump_update_list_not_buffered (j : Jump) (ds : List ℚ) (h : j.jump_buffered = false) :
    j.update_list ds = j := by
  induction ds generalizing j with
  | nil => rfl
  | cons d ds ih =>
      show (j.update d).update_list ds = j
      rw [jump_update_not_buffered j d h]
      exact ih j h

theorem jump_update_clears_on_finish (j : Jump) (d : ℚ) (hb : j.jump_buffered = true)
    (hd : j.input_timer.duration ≤ j.input_timer.elapsed + d) :
    j.update d = Jump.reset { j with input_timer := j.input_timer.tick d } := by
  have hfin : (j.input_timer.tick d).finished = true := by
    simp only [Timer.tick, Timer.finished, decide_eq_true_eq]
    exact le_min hd le_rfl
  simp [Jump.update, hb, hfin]

theorem jump_update_list_clears (ds : List ℚ) (j : Jump) (hb : j.jump_buffered = true)
    (hlt : j.input_timer.elapsed < j.input_timer.duration)
    (hsum : j.input_timer.duration ≤ j.input_timer.elapsed + ds.sum) :
    (j.update_list ds).jump_buffered = false := by
  induction ds generalizing j with
  | nil =>
      simp only [List.sum_nil, add_zero] at hsum
      exact absurd (lt_of_lt_of_le hlt hsum) (lt_irrefl _)
  | cons d ds ih =>
      show ((j.update d).update_list ds).jump_buffered = false
      by_cases hc : j.input_timer.duration ≤ j.input_timer.elapsed + d
      · rw [jump_update_clears_on_finish j d hb hc]
        rw [jump_update_list_not_buffered _ _ rfl]
        rfl
      · push_neg at hc
        have hfin : (j.input_timer.tick d).finished = false := by
          simp only [Timer.tick, Timer.finished, decide_eq_false_iff_not, not_le]
          exact lt_of_le_of_lt (min_le_left _ _) (by linarith)
        have hmin : min (j.input_timer.elapsed + d) j.input_timer.duration
            = j.input_timer.elapsed + d := min_eq_left (le_of_lt hc)
        have hupd : j.update d = { j with input_timer := j.input_timer.tick d } := by
          simp [Jump.update, hb, hfin]
        rw [hupd]
        apply ih
        · exact hb
        · simpa [Timer.tick, hmin] using hc
        · simp only [Timer.tick, hmin, List.sum_cons] at hsum ⊢
          linarith [hsum]

theorem jump_get_none_of_not_buffered (j : Jump) (h : j.jump_buffered = false) :
    j.get_jump_force = (j, none) := by
  simp [Jump.get_jump_force, h]

/-- C1: starting from jump stage `Single` and with a jump buffered before
each call, four consecutive calls to `Jump::get_jump_force` return the
forces 10.0, 15.0, 20.0 and then wrap: the fourth returns 10.0; each
consuming call clears the buffer and advances the jump stage
Single → Double → Triple → Single. -/
theorem spec_c1 (j : Jump) (h : j.jump_stage = JumpStage.Single) :
    (j.press_and_jump.2 = some 10 ∧
      j.press_and_jump.1.jump_stage = JumpStage.Double ∧
      j.press_and_jump.1.jump_buffered = false) ∧
    (j.press_and_jump.1.press_and_jump.2 = some 15 ∧
      j.press_and_jump.1.press_and_jump.1.jump_stage = JumpStage.Triple ∧
      j.press_and_jump.1.press_and_jump.1.jump_buffered = false) ∧
    (j.press_and_jump.1.press_and_jump.1.press_and_jump.2 = some 20 ∧
      j.press_and_jump.1.press_and_jump.1.press_and_jump.1.jump_stage = JumpStage.Single ∧
      j.press_and_jump.1.press_and_jump.1.press_and_jump.1.jump_buffered = false) ∧
    (j.press_and_jump.1.press_and_jump.1.press_and_jump.1.press_and_jump.2 = some 10 ∧
      j.press_and_jump.1.press_and_jump.1.press_and_jump.1.press_and_jump.1.jump_stage
        = JumpStage.Double) := by
  rcases j with ⟨t, stage, b⟩
  simp only [Jump.jump_stage] at h
  subst h
  simp [Jump.press_and_jump, Jump.buffer_jump, Jump.get_jump_force, Jump.reset_input, Timer.reset]

/-- Witness for C1 at the default `Jump` component. -/
theorem spec_c1_witness :
    Jump.mk_default.jump_stage = JumpStage.Single ∧
    Jump.mk_default.press_and_jump.2 = some 10 := by
  exact ⟨rfl, (spec_c1 Jump.mk_default rfl).1.1⟩

/-- C3: if calls to `Jump::update(dt)` accumulate past the buffer window
(the input timer duration, 0.2 s in the latest revision) while a jump is
buffered and unconsumed, the buffer clears, and any subsequent
`Jump::get_jump_force` call made before a new `buffer_jump` returns no
force (`none`), never an error. -/
theorem spec_c3 (j : Jump) (ds : List ℚ)
    (hpos : 0 < j.input_timer.duration)
    (_hnn : ∀ d ∈ ds, 0 ≤ d)
    (hsum : j.input_timer.duration ≤ ds.sum) :
    (j.buffer_jump.update_list ds).jump_buffered = false ∧
    (j.buffer_jump.update_list ds).get_jump_force = (j.buffer_jump.update_list ds, none) := by
  have hb : j.buffer_jump.jump_buffered = true := rfl
  have hlt : j.buffer_jump.input_timer.elapsed < j.buffer_jump.input_timer.duration := by
    simpa [Jump.buffer_jump, Timer.reset] using hpos
  have hs : j.buffer_jump.input_timer.duration
      ≤ j.buffer_jump.input_timer.elapsed + ds.sum := by
    simpa [Jump.buffer_jump, Timer.reset] using hsum
  have hcl := jump_update_list_clears ds j.buffer_jump hb hlt hs
  exact ⟨hcl, jump_get_none_of_not_buffered _ hcl⟩

/-- Witness for C3: the default 0.2 s window expires after two 0.1 s
frames. -/
theorem spec_c3_witness :
    (0 < Jump.mk_default.input_timer.duration) ∧
    (Jump.mk_default.buffer_jump.update_list [1/10, 1/10]).jump_buffered = false := by
  refine ⟨by norm_num [Jump.mk_default, Timer.from_seconds], ?_⟩
  exact (spec_c3 Jump.mk_default [1/10, 1/10]
    (by norm_num [Jump.mk_default, Timer.from_seconds])
    (by intro d hd; simp at hd; norm_num [hd])
    (by norm_num [Jump.mk_default, Timer.from_seconds])).1

/-- C4: calling `Jump::buffer_jump` twice before consumption queues only
one jump — buffering is idempotent on the component state, the first
subsequent `get_jump_force` returns a force and leaves the buffer
cleared, and on a cleared buffer every further `get_jump_force` returns
`none` and changes nothing. -/
theorem spec_c4 (j : Jump) :
    j.buffer_jump.buffer_jump = j.buffer_jump ∧
    j.buffer_jump.get_jump_force.2.isSome = true ∧
    j.buffer_jump.get_jump_force.1.jump_buffered = false ∧
    ∀ k : Jump, k.jump_buffered = false → k.get_jump_force = (k, none) := by
  refine ⟨rfl, ?_, ?_, fun k hk => jump_get_none_of_not_buffered k hk⟩
  · rcases j with ⟨t, stage, b⟩
    cases stage <;>
      simp [Jump.buffer_jump, Jump.get_jump_force, Jump.reset_input, Timer.reset]
  · rcases j with ⟨t, stage, b⟩
    cases stage <;>
      simp [Jump.buffer_jump, Jump.get_jump_force, Jump.reset_input, Timer.reset]

/-- Witness for C4 at the default component and a concrete unbuffered
state. -/
theorem spec_c4_witness :
    Jump.mk_default.buffer_jump.buffer_jump = Jump.mk_default.buffer_jump ∧
    Jump.get_jump_force ⟨⟨1/5, 0⟩, JumpStage.Double, false⟩
      = (⟨⟨1/5, 0⟩, JumpStage.Double, false⟩, none) := by
  exact ⟨(spec_c4 Jump.mk_default).1,
    (spec_c4 Jump.mk_default).2.2.2 ⟨⟨1/5, 0⟩, JumpStage.Double, false⟩ rfl⟩

/-- C10: in the latest `Jump` component, when the buffer window expires
(`Jump::update` ticks the input timer to finished while a jump is
buffered and unconsumed), the full `Jump::reset` runs, resetting
`jump_stage` back to `Single` in addition to clearing the buffered flag
and the timer — expiry cancels any Double/Triple progression. -/
theorem spec_c10 (j : Jump) (d : ℚ) (hb : j.jump_buffered = true) (_hnn : 0 ≤ d)
    (hd : j.input_timer.duration ≤ j.input_timer.elapsed + d) :
    (j.update d).jump_stage = JumpStage.Single ∧
    (j.update d).jump_buffered = false ∧
    (j.update d).input_timer.elapsed = 0 := by
  rw [jump_update_clears_on_finish j d hb hd]
  exact ⟨rfl, rfl, rfl⟩

/-- Witness for C10: a buffered `Triple`-stage component whose window
expires in one 0.2 s tick drops back to `Single`. -/
theorem spec_c10_witness :
    ((⟨⟨1/5, 1/10⟩, JumpStage.Triple, true⟩ : Jump).jump_buffered = true) ∧
    ((⟨⟨1/5, 1/10⟩, JumpStage.Triple, true⟩ : Jump).update (1/5)).jump_stage
      = JumpStage.Single := by
  refine ⟨rfl, ?_⟩
  exact (spec_c10 ⟨⟨1/5, 1/10⟩, JumpStage.Triple, true⟩ (1/5) rfl (by norm_num)
    (by norm_num)).1

/-- C6 counterexample: with a zero movement direction and no outside
force, `move_player_from_rotation` skips the velocity write entirely, so
the resulting horizontal velocity keeps its old nonzero value instead of
becoming the (zero) sum the claim requires. -/
theorem spec_c6_counterexample :
    (Locomotion.move_player_from_rotation Locomotion.PlayerSpeed.mk_default
      ⟨5, 8, 7⟩ ⟨0, 0, 1⟩ Vec3.zero none).x ≠ 0 := by
  decide

/-- C6 (amended): `move_player_from_rotation` never modifies `linvel.y`;
when the direction is zero and no outside force is active it leaves the
velocity entirely unchanged (no write of the zero sum); otherwise it
writes horizontal velocity equal to the outside force's horizontal
components plus body-forward times current speed, the forward term only
when the direction is nonzero. -/
theorem spec_c6 (player_speed : Locomotion.PlayerSpeed)
    (linvel forward direction : Vec3) (outside_force : Option Vec3) :
    (Locomotion.move_player_from_rotation player_speed linvel forward direction
        outside_force).y = linvel.y ∧
    (direction = Vec3.zero → outside_force = none →
      Locomotion.move_player_from_rotation player_speed linvel forward direction
        outside_force = linvel) ∧
    (∀ f, outside_force = some f → direction ≠ Vec3.zero →
      (Locomotion.move_player_from_rotation player_speed linvel forward direction
          outside_force).x = f.x + forward.x * player_speed.current ∧
      (Locomotion.move_player_from_rotation player_speed linvel forward direction
          outside_force).z = f.z + forward.z * player_speed.current) ∧
    (∀ f, outside_force = some f → direction = Vec3.zero →
      (Locomotion.move_player_from_rotation player_speed linvel forward direction
          outside_force).x = f.x ∧
      (Locomotion.move_player_from_rotation player_speed linvel forward direction
          outside_force).z = f.z) ∧
    (outside_force = none → direction ≠ Vec3.zero →
      (Locomotion.move_player_from_rotation player_speed linvel forward direction
          outside_force).x = forward.x * player_speed.current ∧
      (Locomotion.move_player_from_rotation player_speed linvel forward direction
          outside_force).z = forward.z * player_speed.current) := by
  rcases outside_force with _ | f <;>
    by_cases hdir : direction = Vec3.zero <;>
      simp [Locomotion.move_player_from_rotation, Locomotion.is_moving, hdir]

/-- Witness for C6: zero direction and no force leave the velocity
untouched. -/
theorem spec_c6_witness :
    (Locomotion.move_player_from_rotation Locomotion.PlayerSpeed.mk_default
      ⟨5, 8, 7⟩ ⟨0, 0, 1⟩ Vec3.zero none).y = 8 ∧
    Locomotion.move_player_from_rotation Locomotion.PlayerSpeed.mk_default
      ⟨5, 8, 7⟩ ⟨0, 0, 1⟩ Vec3.zero none = ⟨5, 8, 7⟩ := by
  refine ⟨?_, ?_⟩
  · exact (spec_c6 Locomotion.PlayerSpeed.mk_default ⟨5, 8, 7⟩ ⟨0, 0, 1⟩
      Vec3.zero none).1
  · exact (spec_c6 Locomotion.PlayerSpeed.mk_default ⟨5, 8, 7⟩ ⟨0, 0, 1⟩
      Vec3.zero none).2.1 rfl rfl

/-- C8 counterexample: a single `accelerate` call with dt = 1.5 s from the
default state finishes the debounce timer and overshoots: the resulting
speed is 30, above `top_speed = 15` — the update is not clamped at
`top_speed` for large dt. -/
theorem spec_c8_counterexample :
    (Locomotion.PlayerSpeed.mk_default.accelerate (3/2)).current_speed = 30 ∧
    ¬ (Locomotion.PlayerSpeed.mk_default.accelerate (3/2)).current_speed
        ≤ Locomotion.PlayerSpeed.mk_default.top_speed := by
  have h : (Locomotion.PlayerSpeed.mk_default.accelerate (3/2)).current_speed = 30 := by
    norm_num [Locomotion.PlayerSpeed.accelerate, Locomotion.PlayerSpeed.mk_default,
      Timer.tick, Timer.finished, Timer.from_seconds]
  refine ⟨h, ?_⟩
  rw [h]
  norm_num [Locomotion.PlayerSpeed.mk_default]

/-- C8 (amended): for `accelerate` with dt ≥ 0, while the ticked debounce
timer has not finished the speed is unchanged; once finished, if the
speed is within 0.3 of `top_speed` it is set exactly to `top_speed`, and
otherwise it moves toward `top_speed` by the remaining gap times
`acceleration * dt`; the result does not exceed `top_speed` whenever
`dt * acceleration ≤ 1` (any frame delta up to 0.5 s at the default
acceleration 2.0), but a single larger dt can overshoot. -/
theorem spec_c8 (s : Locomotion.PlayerSpeed) (dt : ℚ) (_h0 : 0 ≤ dt) :
    ((s.accel_timer.tick dt).finished = false →
      (s.accelerate dt).current_speed = s.current_speed) ∧
    ((s.accel_timer.tick dt).finished = true → s.current_speed + 3/10 ≤ s.top_speed →
      (s.accelerate dt).current_speed
        = s.current_speed + (s.top_speed - s.current_speed) * (dt * s.acceleration)) ∧
    ((s.accel_timer.tick dt).finished = true → s.top_speed < s.current_speed + 3/10 →
      (s.accelerate dt).current_speed = s.top_speed) ∧
    (dt * s.acceleration ≤ 1 → s.current_speed ≤ s.top_speed →
      (s.accelerate dt).current_speed ≤ s.top_speed) := by
  refine ⟨?_, ?_, ?_, ?_⟩
  · intro hfin
    simp [Locomotion.PlayerSpeed.accelerate, hfin]
  · intro hfin hle
    simp [Locomotion.PlayerSpeed.accelerate, hfin, hle]
  · intro hfin hlt
    have hle : ¬ s.current_speed + 3/10 ≤ s.top_speed := by linarith
    simp [Locomotion.PlayerSpeed.accelerate, hfin, hle]
  · intro hr hc
    by_cases hfin : (s.accel_timer.tick dt).finished = true
    · by_cases hle : s.current_speed + 3/10 ≤ s.top_speed
      · have hg : 0 ≤ s.top_speed - s.current_speed := by linarith
        have hmul := mul_le_mul_of_nonneg_left hr hg
        simp [Locomotion.PlayerSpeed.accelerate, hfin, hle]
        nlinarith
      · simp [Locomotion.PlayerSpeed.accelerate, hfin, hle]
    · simp only [Bool.not_eq_true] at hfin
      simp [Locomotion.PlayerSpeed.accelerate, hfin, hc]

/-- Witness for C8: a 0.1 s tick against the fresh 1.5 s debounce timer
changes nothing. -/
theorem spec_c8_witness :
    ((0:ℚ) ≤ 1/10) ∧
    (Locomotion.PlayerSpeed.mk_default.accelerate (1/10)).current_speed = 15/2 := by
  refine ⟨by norm_num, ?_⟩
  exact (spec_c8 Locomotion.PlayerSpeed.mk_default (1/10) (by norm_num)).1
    (by simp [Timer.tick, Timer.finished, Locomotion.PlayerSpeed.mk_default,
      Timer.from_seconds]; norm_num)

/-- C2 counterexample: in the latest revision
(`src/player/movement/jumping.rs`), the wall-jump handler for a player
wall-sliding against normal (1, 0, 0) sets the linear velocity to
`Vec3::Y * 15` = (0, 15, 0), not to `(up + normal) * 15` = (15, 15, 0) as
the claim requires. -/
theorem spec_c2_counterexample :
    (Jumping.handle_wall_jumping true ⟨⟨0, 0, 0⟩, ⟨0, 0, -1⟩⟩ ⟨0, -3, 0⟩ 0
        Jump.mk_default ⟨1, 0, 0⟩).2.1 = (⟨0, 15, 0⟩ : Vec3) ∧
    (⟨0, 15, 0⟩ : Vec3) ≠ (Vec3.unitY + ⟨1, 0, 0⟩) * (15 : ℚ) := by
  constructor
  · simp [Jumping.handle_wall_jumping, Jump.get_wall_jump_force, Jump.reset_input]
  · simp [Vec3.unitY]

/-- C2 (amended): in the `src/player_movement.rs` revision the wall-jump
handler behaves exactly as the claim states — for a player wall-sliding
against normal n with jump just-pressed it sets the linear velocity to
`(up + n) * 15`, turns the player to face along n and enters `Rising`
(so for n = (1, 0, 0) the velocity is (15, 15, 0) and the player faces
+X); in the latest revision (`src/player/movement/jumping.rs`) the
handler instead turns the player to face along n, sets the `Momentum`
scalar to the wall-jump force 15, sets the velocity to the vertical
`(0, 1, 0) * 15` only and removes the `Walljump` marker. -/
theorem spec_c2 (t : Transform) (v n : Vec3) (j : Jump)
    (t2 : Transform) (v2 : Vec3) (m2 : ℚ) (j2 : Jump) (n2 : Vec3) :
    ((PM.handle_wall_jumping true t v (.WallSliding n) j).1.forward = n ∧
      (PM.handle_wall_jumping true t v (.WallSliding n) j).2.1 = (Vec3.unitY + n) * (15 : ℚ) ∧
      (PM.handle_wall_jumping true t v (.WallSliding n) j).2.2.1 = PM.GroundedState.Rising ∧
      (PM.handle_wall_jumping true t v (.WallSliding n) j).2.2.2.jump_buffered = false) ∧
    ((Jumping.handle_wall_jumping true t2 v2 m2 j2 n2).1.forward = n2 ∧
      (Jumping.handle_wall_jumping true t2 v2 m2 j2 n2).2.1 = Vec3.unitY * (15 : ℚ) ∧
      (Jumping.handle_wall_jumping true t2 v2 m2 j2 n2).2.2.1 = 15 ∧
      (Jumping.handle_wall_jumping true t2 v2 m2 j2 n2).2.2.2.2 = none) := by
  constructor
  · refine ⟨?_, ?_, ?_, ?_⟩ <;>
      simp [PM.handle_wall_jumping, Transform.look_at, Jump.get_wall_jump_force,
        Jump.reset_input]
  · refine ⟨?_, ?_, ?_, ?_⟩ <;>
      simp [Jumping.handle_wall_jumping, Transform.look_at, Jump.get_wall_jump_force,
        Jump.reset_input]

/-- C5 counterexample: in the latest revision
(`src/player/movement/jumping.rs`), a wall-slide entry (`Started` event
between the wall sensor and a tagged wall, confirmed by the ray) sets the
friction to 0 but leaves the player's horizontal velocity untouched — it
stays 5 instead of being zeroed, so the claimed transition effect fails
on the code. -/
theorem spec_c5_counterexample :
    (Jumping.detect_walls_event always_hit 1 [(2, ⟨3, 0, 0⟩)]
        ⟨⟨⟨0, 0, 0⟩, ⟨0, 0, -1⟩⟩, 1, none, ⟨5, 0, 5⟩⟩ (.Started 1 2)).friction = 0 ∧
    ¬ (Jumping.detect_walls_event always_hit 1 [(2, ⟨3, 0, 0⟩)]
        ⟨⟨⟨0, 0, 0⟩, ⟨0, 0, -1⟩⟩, 1, none, ⟨5, 0, 5⟩⟩ (.Started 1 2)).linvel.x = 0 := by
  constructor
  · rfl
  · show ¬ (5 : ℚ) = 0
    norm_num

/-- C5 (amended): when an airborne, not-already-wall-sliding player enters
the wall-sliding state via a wall-sensor collision-begin with a tagged
wall confirmed by a ray toward the wall, the latest revision
(`src/player/movement/jumping.rs`) records `Walljump(normal)` and sets the
friction coefficient to 0 while leaving the velocity untouched, whereas
the earlier revision (`src/player_movement.rs`) zeroes `linvel.x` and
`linvel.z` and enters `WallSliding(normal)` but tracks no friction — no
revision performs both effects. -/
theorem spec_c5 (cast1 cast2 : CastOracle) (sensor w : Nat)
    (walls : List (Nat × Vec3)) (wall_translation : Vec3)
    (p : Jumping.PlayerState) (q : PM.PlayerState) (inter1 inter2 : RayIntersection)
    (hw : walls.lookup w = some wall_translation)
    (hwj : p.walljump = none)
    (hc1 : cast1 p.transform.translation wall_translation = some inter1)
    (hair : q.grounded.is_airborne = true)
    (hnws : q.grounded.is_wall_sliding = false)
    (hc2 : cast2 q.transform.translation wall_translation = some inter2) :
    Jumping.detect_walls_event cast1 sensor walls p (.Started sensor w)
      = { p with walljump := some inter1.normal, friction := 0 } ∧
    PM.detect_walls_event cast2 sensor walls q (.Started sensor w)
      = { q with linvel := ⟨0, q.linvel.y, 0⟩,
                 grounded := .WallSliding inter2.normal } := by
  constructor
  · simp [Jumping.detect_walls_event, hw, hwj, hc1]
  · simp [PM.detect_walls_event, hw, hair, hnws, hc2]

/-- Witness for C5: concrete sensor 1, wall 2 at (3, 0, 0), an airborne
falling player at the origin and the fixed test oracle. -/
theorem spec_c5_witness :
    ([((2 : Nat), (⟨3, 0, 0⟩ : Vec3))].lookup 2 = some (⟨3, 0, 0⟩ : Vec3)) ∧
    Jumping.detect_walls_event always_hit 1 [(2, ⟨3, 0, 0⟩)]
      ⟨⟨⟨0, 0, 0⟩, ⟨0, 0, -1⟩⟩, 1, none, ⟨4, -1, 4⟩⟩ (.Started 1 2)
      = ⟨⟨⟨0, 0, 0⟩, ⟨0, 0, -1⟩⟩, 0, some Vec3.unitY, ⟨4, -1, 4⟩⟩ ∧
    PM.detect_walls_event always_hit 1 [(2, ⟨3, 0, 0⟩)]
      ⟨⟨⟨0, 0, 0⟩, ⟨0, 0, -1⟩⟩, .Falling, ⟨4, -1, 4⟩⟩ (.Started 1 2)
      = ⟨⟨⟨0, 0, 0⟩, ⟨0, 0, -1⟩⟩, .WallSliding Vec3.unitY, ⟨0, -1, 0⟩⟩ := by
  have h := spec_c5 always_hit always_hit 1 2 [(2, ⟨3, 0, 0⟩)] ⟨3, 0, 0⟩
    ⟨⟨⟨0, 0, 0⟩, ⟨0, 0, -1⟩⟩, 1, none, ⟨4, -1, 4⟩⟩
    ⟨⟨⟨0, 0, 0⟩, ⟨0, 0, -1⟩⟩, .Falling, ⟨4, -1, 4⟩⟩
    ⟨⟨1, 2, 3⟩, Vec3.unitY⟩ ⟨⟨1, 2, 3⟩, Vec3.unitY⟩
    rfl rfl rfl rfl rfl rfl
  exact ⟨rfl, h.1, h.2⟩

/-- C7: for every player position, momentum and orbit direction, if the
ray cast from the player toward the desired camera position hits a solid,
`update_camera_target_position` sets the camera's `target_position`
exactly to the ray's hit point; if the ray hits nothing, `target_position`
equals the unclamped desired position. -/
theorem spec_c7 (cast_ray : CastOracle) (c : Camera.CameraController)
    (player_translation : Vec3) (momentum : ℚ) (yawed_forward : Vec3) :
    (∀ i, cast_ray player_translation
        (Camera.desired_camera_position c player_translation momentum yawed_forward)
          = some i →
      (Camera.update_camera_target_position cast_ray c player_translation momentum
          yawed_forward).target_position = i.point) ∧
    (cast_ray player_translation
        (Camera.desired_camera_position c player_translation momentum yawed_forward)
          = none →
      (Camera.update_camera_target_position cast_ray c player_translation momentum
          yawed_forward).target_position
        = Camera.desired_camera_position c player_translation momentum yawed_forward) := by
  constructor
  · intro i hi
    simp [Camera.update_camera_target_position, hi]
  · intro hn
    simp [Camera.update_camera_target_position, hn]

/-- Witness for C7: the fixed test oracle always hits at (1, 2, 3), and
the camera target becomes exactly that point. -/
theorem spec_c7_witness :
    always_hit Vec3.zero
      (Camera.desired_camera_position Camera.CameraController.mk_default Vec3.zero 0
        ⟨0, 0, -1⟩) = some ⟨⟨1, 2, 3⟩, Vec3.unitY⟩ ∧
    (Camera.update_camera_target_position always_hit Camera.CameraController.mk_default
      Vec3.zero 0 ⟨0, 0, -1⟩).target_position = ⟨1, 2, 3⟩ := by
  exact ⟨rfl, (spec_c7 always_hit Camera.CameraController.mk_default Vec3.zero 0
    ⟨0, 0, -1⟩).1 ⟨⟨1, 2, 3⟩, Vec3.unitY⟩ rfl⟩

/-- C9: for every starting orbit angle in [-360, 360] and any combination
of CameraLeft/CameraRight just-pressed inputs in one tick, the angle
produced by `rotate_camera` lies again in [-360, 360] — the interval is an
invariant of the rotate operation. -/
theorem spec_c9 (l r : Bool) (a : ℚ) (h1 : -360 ≤ a) (h2 : a ≤ 360) :
    -360 ≤ Camera.rotate_camera l r a ∧ Camera.rotate_camera l r a ≤ 360 := by
  cases l <;> cases r <;>
    simp only [Camera.rotate_camera, Bool.true_eq_false, if_true, if_false] <;>
      split_ifs <;> constructor <;> linarith

/-- Witness for C9 at the boundary: 359.9 plus a CameraRight step passes
360 and wraps back into the interval (to 44.9). -/
theorem spec_c9_witness :
    ((-360 : ℚ) ≤ 3599/10 ∧ (3599/10 : ℚ) ≤ 360) ∧
    (-360 ≤ Camera.rotate_camera false true (3599/10) ∧
      Camera.rotate_camera false true (3599/10) ≤ 360) := by
  exact ⟨⟨by norm_num, by norm_num⟩,
    spec_c9 false true (3599/10) (by norm_num) (by norm_num)⟩

end Platformer
